import Mathlib

/-!
# RoboSketch Planner — verification of the spec against the source

A shallow embedding of the ai-robot-planner pipeline: the BOM table view
(`bom-table`), the OpenAI-backed generators (`generate-bill-of-materials`,
`generate-project-description`, `generate-assembly-instructions`,
`generate-images` in both its plain and refinement revisions), the
orchestrator (`generateProjectAction`, sequential and parallel revisions),
and the result packager (`handleDownload` in `results-display`).

External API calls are modelled by outcome oracles: each call consumes the
next prescribed outcome (a thrown exception, or a response payload).  A
response body is either malformed (`JSON.parse` throws) or a parsed JSON
value.  JavaScript numbers are modelled as exact rationals represented as
an integer numerator over a positive natural denominator, without
normalization, so that every arithmetic operation the code performs is
kernel-computable; binary floating-point artifacts are out of scope.
-/

/-- A JavaScript number, as an exact (unnormalized) rational: numerator `n`
over denominator `d`.  Every value constructed here has `d > 0`, and all
the operations below are invariant under scaling of the representation. -/
structure JsRat where
  n : ℤ
  d : ℕ
deriving DecidableEq, Repr

theorem JsRat.ext_nd : ∀ {a b : JsRat}, a.n = b.n → a.d = b.d → a = b := by
  intro a b hn hd
  cases a
  cases b
  simp_all

def JsRat.zero : JsRat := ⟨0, 1⟩

def JsRat.add (a b : JsRat) : JsRat := ⟨a.n * (b.d : ℤ) + b.n * (a.d : ℤ), a.d * b.d⟩

def JsRat.mul (a b : JsRat) : JsRat := ⟨a.n * b.n, a.d * b.d⟩

def JsRat.sub (a b : JsRat) : JsRat := ⟨a.n * (b.d : ℤ) - b.n * (a.d : ℤ), a.d * b.d⟩

def JsRat.neg (a : JsRat) : JsRat := ⟨-a.n, a.d⟩

/-- Comparison by cross-multiplication (denominators are positive). -/
def JsRat.ltb (a b : JsRat) : Bool := decide (a.n * (b.d : ℤ) < b.n * (a.d : ℤ))

/-- The value is zero (the numerator is zero). -/
def JsRat.isZero (a : JsRat) : Bool := decide (a.n = 0)

instance : Add JsRat := ⟨JsRat.add⟩
instance : Mul JsRat := ⟨JsRat.mul⟩
instance : Sub JsRat := ⟨JsRat.sub⟩
instance : Neg JsRat := ⟨JsRat.neg⟩
instance : Zero JsRat := ⟨JsRat.zero⟩

/-- A natural number as a JavaScript number. -/
def JsRat.ofNat (k : ℕ) : JsRat := ⟨(k : ℤ), 1⟩

/-- Floor of the represented rational (floor division of numerator by
denominator). -/
def JsRat.floor (a : JsRat) : ℤ := Int.fdiv a.n (a.d : ℤ)

/-- Decimal digits of a value in `[0, 1)`, with fuel bounding the number of
digits (the numbers in this code are finite decimals). -/
def fracDigits : ℕ → JsRat → String
  | 0, _ => ""
  | f + 1, q =>
    if q.isZero then ""
    else
      let q10 := q * JsRat.ofNat 10
      let d := q10.floor
      toString d ++ fracDigits f (q10 - ⟨d, 1⟩)

/-- Decimal rendering of a nonnegative value, as JavaScript string coercion
renders a nonnegative finite-decimal number. -/
def ratToStringNonneg (q : JsRat) : String :=
  let ip := q.floor
  let frac := q - ⟨ip, 1⟩
  if frac.isZero then toString ip else toString ip ++ "." ++ fracDigits 30 frac

/-- JavaScript number-to-string coercion (template-literal interpolation
and `String(·)`), modelled for finite decimals. -/
def jsNumToString (q : JsRat) : String :=
  if q.ltb 0 then "-" ++ ratToStringNonneg (-q) else ratToStringNonneg q

/-- `Number.prototype.toFixed(2)` for a nonnegative value: round the number
of hundredths half away from zero, then print with exactly two fractional
digits. -/
def toFixed2Nonneg (q : JsRat) : String :=
  let n := ((q * JsRat.ofNat 100 + ⟨1, 2⟩).floor).toNat
  let ip := n / 100
  let fp := n % 100
  toString ip ++ "." ++ (if fp < 10 then "0" ++ toString fp else toString fp)

/-- `Number.prototype.toFixed(2)` (model: rounding of exact decimal
values). -/
def toFixed2 (q : JsRat) : String :=
  if q.ltb 0 then "-" ++ toFixed2Nonneg (-q) else toFixed2Nonneg q

/-- JSON values as produced by `JSON.parse`.  A missing object property is
modelled as `Json.null` (JavaScript `undefined` and `null` behave
identically in every code path embedded here: both are falsy and both
satisfy the `== null` checks). -/
inductive Json where
  | null : Json
  | bool : Bool → Json
  | num : JsRat → Json
  | str : String → Json
  | arr : List Json → Json
  | obj : List (String × Json) → Json

/-- JavaScript truthiness of a JSON value (`undefined`/`null`, `false`,
`0` and `""` are falsy; every array and object is truthy). -/
def jsTruthy : Json → Bool
  | .null => false
  | .bool b => b
  | .num q => !q.isZero
  | .str s => decide (s ≠ "")
  | .arr _ => true
  | .obj _ => true

/-- Property access `j.k` on a parsed JSON value: the binding of the key in
an object, `Json.null` (for `undefined`) otherwise. -/
def jsGet (j : Json) (k : String) : Json :=
  match j with
  | .obj fields =>
    match fields.find? (fun p => p.1 == k) with
    | some p => p.2
    | none => .null
  | _ => .null

/-! ## BOM table (`bom-table`, `src/unnamed/part_004`) -/

/-- One Bill of Materials item, following the output schema of the
`generate-bill-of-materials` revision that includes a quantity
(`component`, `description`, `quantity`, `link`, `approximatePriceUSD`). -/
structure BomItem where
  component : String
  description : String
  quantity : ℕ
  link : String
  approximatePriceUSD : JsRat
deriving DecidableEq, Repr

/-- `BomTable`'s total: `bom.reduce((acc, item) => acc +
item.approximatePriceUSD * item.quantity, 0)`. -/
def totalCost (bom : List BomItem) : JsRat :=
  bom.foldl (fun acc item => acc + item.approximatePriceUSD * JsRat.ofNat item.quantity) 0

/-- The total-cost cell rendered by `BomTable`:
`$\x7btotalCost.toFixed(2)\x7d`. -/
def displayedTotalCost (bom : List BomItem) : String :=
  "$" ++ toFixed2 (totalCost bom)

/-- Sum of a list of JavaScript numbers (left fold of `+` from `0`, as
`Array.prototype.reduce` with initial value `0`). -/
def jsSum (l : List JsRat) : JsRat := l.foldl (· + ·) 0

/-- The example BOM list from the spec: 4 motors at $3.95 and 2 batteries
at $12.95. -/
def exampleBom : List BomItem :=
  [ { component := "DC Motor 6V"
    , description := "A small DC motor used for driving the robot wheels."
    , quantity := 4
    , link := "https://www.adafruit.com/product/3777"
    , approximatePriceUSD := ⟨395, 100⟩ }
  , { component := "Lithium-ion Battery 7.4V 2200mAh"
    , description := "Rechargeable battery pack for powering motors and control electronics."
    , quantity := 2
    , link := "https://www.sparkfun.com/products/13855"
    , approximatePriceUSD := ⟨1295, 100⟩ } ]

theorem JsRat.add_comm_eq (a b : JsRat) : a + b = b + a := by
  apply JsRat.ext_nd
  · show a.n * (b.d : ℤ) + b.n * (a.d : ℤ) = b.n * (a.d : ℤ) + a.n * (b.d : ℤ)
    ring
  · show a.d * b.d = b.d * a.d
    ring

theorem JsRat.add_assoc_eq (a b c : JsRat) : a + b + c = a + (b + c) := by
  apply JsRat.ext_nd
  · show (a.n * (b.d : ℤ) + b.n * (a.d : ℤ)) * (c.d : ℤ) + c.n * ((a.d * b.d : ℕ) : ℤ)
      = a.n * ((b.d * c.d : ℕ) : ℤ) + (b.n * (c.d : ℤ) + c.n * (b.d : ℤ)) * (a.d : ℤ)
    push_cast
    ring
  · show a.d * b.d * c.d = a.d * (b.d * c.d)
    ring

theorem JsRat.zero_add_eq (x : JsRat) : (0 : JsRat) + x = x := by
  apply JsRat.ext_nd
  · show 0 * (x.d : ℤ) + x.n * 1 = x.n
    ring
  · show 1 * x.d = x.d
    ring

theorem JsRat.add_zero_eq (x : JsRat) : x + (0 : JsRat) = x := by
  apply JsRat.ext_nd
  · show x.n * 1 + 0 * (x.d : ℤ) = x.n
    ring
  · show x.d * 1 = x.d
    ring

theorem jsSum_foldl_hoist : ∀ (l : List JsRat) (a : JsRat), l.foldl (· + ·) a = a + jsSum l := by
  intro l
  induction l with
  | nil =>
    intro a
    show a = a + 0
    rw [JsRat.add_zero_eq]
  | cons x xs ih =>
    intro a
    show xs.foldl (· + ·) (a + x) = a + jsSum (x :: xs)
    rw [ih (a + x)]
    have hcons : jsSum (x :: xs) = x + jsSum xs := by
      show xs.foldl (· + ·) ((0 : JsRat) + x) = x + jsSum xs
      rw [JsRat.zero_add_eq, ih x]
    rw [hcons, JsRat.add_assoc_eq]

theorem totalCost_eq_jsSum (bom : List BomItem) :
    totalCost bom = jsSum (bom.map (fun i => JsRat.ofNat i.quantity * i.approximatePriceUSD)) := by
  have foldl_add_eq : ∀ (f : BomItem → JsRat) (l : List BomItem) (a : JsRat),
      l.foldl (fun acc i => acc + f i) a = a + jsSum (l.map f) := by
    intro f l
    induction l with
    | nil =>
      intro a
      show a = a + 0
      rw [JsRat.add_zero_eq]
    | cons x xs ih =>
      intro a
      show xs.foldl (fun acc i => acc + f i) (a + f x) = a + jsSum (f x :: xs.map f)
      rw [ih (a + f x)]
      have hcons : jsSum (f x :: xs.map f) = f x + jsSum (xs.map f) := by
        show (xs.map f).foldl (· + ·) ((0 : JsRat) + f x) = f x + jsSum (xs.map f)
        rw [JsRat.zero_add_eq, jsSum_foldl_hoist]
      rw [hcons, JsRat.add_assoc_eq]
  have mulc : (fun i : BomItem => i.approximatePriceUSD * JsRat.ofNat i.quantity)
      = (fun i : BomItem => JsRat.ofNat i.quantity * i.approximatePriceUSD) := by
    funext i
    apply JsRat.ext_nd
    · show i.approximatePriceUSD.n * (i.quantity : ℤ) = (i.quantity : ℤ) * i.approximatePriceUSD.n
      ring
    · show i.approximatePriceUSD.d * 1 = 1 * i.approximatePriceUSD.d
      ring
  show (bom.foldl (fun acc i => acc + i.approximatePriceUSD * JsRat.ofNat i.quantity) 0) = _
  rw [foldl_add_eq _ bom 0, JsRat.zero_add_eq, mulc]

/-- C1: the total cost displayed by the BOM table equals the sum over all
items of quantity × unit price, rendered to two decimal places; on the
spec's example list (4 × $3.95 and 2 × $12.95) it reads `$41.70`. -/
theorem c1_bom_total_displayed :
    (∀ bom : List BomItem,
      displayedTotalCost bom
        = "$" ++ toFixed2 (jsSum (bom.map (fun i => JsRat.ofNat i.quantity * i.approximatePriceUSD))))
    ∧ displayedTotalCost exampleBom = "$41.70" := by
  constructor
  · intro bom
    rw [displayedTotalCost, totalCost_eq_jsSum]
  · decide

/-! ## Chat-completion responses

The generators read `response.choices[0]?.message?.content` and run
`JSON.parse` on it.  An outcome is either a rejected API call or a resolved
response whose content is absent/empty (falsy), malformed JSON, or a parsed
JSON value. -/

/-- The body of a chat response: either a string `JSON.parse` rejects, or a
parsed JSON value.  `RespBody.malformed raw` stands for a non-empty
non-JSON string (falsy content — missing or empty — is `ChatOutcome.ret
none`); `generate-project-description` additionally guards this with an
explicit emptiness branch in its embedding. -/
inductive RespBody where
  | malformed (raw : String)
  | wellFormed (json : Json)

/-- Outcome of one `openai.chat.completions.create` call: the promise
rejects, or it resolves with content that is falsy (`none`) or a body. -/
inductive ChatOutcome where
  | throws
  | ret (content : Option RespBody)

/-! ## Bill-of-materials generator (`src/unnamed/part_001`, `part_002`)

Both OpenAI revisions have the same control flow: missing content throws,
`JSON.parse` failure throws, and the whole `try` block is wrapped by a
`catch` that rethrows `'Failed to generate bill of materials'`; on a parsed
body the result is `parsed.billOfMaterials || []`. -/

/-- Output record of `generateBillOfMaterials`: the raw
`parsed.billOfMaterials || []` value (the code performs no further
validation of the field). -/
structure BomOutput where
  billOfMaterials : Json

/-- `generateBillOfMaterials` of `src/unnamed/part_001` lines 36–75 and
`part_002` lines 37–105 (identical error handling).  When the parsed body
is the bare `null` document, `parsed.billOfMaterials` throws a `TypeError`
inside the `try`, which the `catch` rethrows like any other failure; on
every other parsed body the property access yields the field (or
`undefined`, on the boxed primitives and arrays). -/
def generateBillOfMaterials (o : ChatOutcome) : Except String BomOutput :=
  match o with
  | .throws => .error "Failed to generate bill of materials"
  | .ret none => .error "Failed to generate bill of materials"
  | .ret (some (.malformed _)) => .error "Failed to generate bill of materials"
  | .ret (some (.wellFormed Json.null)) => .error "Failed to generate bill of materials"
  | .ret (some (.wellFormed j)) =>
    let v := jsGet j "billOfMaterials"
    .ok { billOfMaterials := if jsTruthy v then v else Json.arr [] }

/-- C2 counterexample: on a response whose body is malformed JSON,
`generateBillOfMaterials` raises `'Failed to generate bill of materials'`
— it does not return an empty `billOfMaterials` list, contrary to the
claim. -/
theorem c2_bom_malformed_counterexample :
    generateBillOfMaterials (ChatOutcome.ret (some (RespBody.malformed "not valid json")))
      = Except.error "Failed to generate bill of materials" := rfl

/-- C2 (amended): if the BOM response body parses as JSON to anything
other than the bare `null` document and its `billOfMaterials` key is
missing (or otherwise falsy), the generator returns an empty list; it
raises `'Failed to generate bill of materials'` and aborts — just like
the code and instruction generators — if the body is malformed JSON, or
is the bare `null` document (property access on it throws), or the call
fails or the content is missing. -/
theorem c2_bom_missing_key_amended :
    (∀ j : Json, j ≠ Json.null → jsTruthy (jsGet j "billOfMaterials") = false →
      generateBillOfMaterials (ChatOutcome.ret (some (RespBody.wellFormed j)))
        = Except.ok { billOfMaterials := Json.arr [] })
    ∧ generateBillOfMaterials (ChatOutcome.ret (some (RespBody.wellFormed Json.null)))
        = Except.error "Failed to generate bill of materials"
    ∧ (∀ raw : String,
      generateBillOfMaterials (ChatOutcome.ret (some (RespBody.malformed raw)))
        = Except.error "Failed to generate bill of materials")
    ∧ generateBillOfMaterials ChatOutcome.throws
        = Except.error "Failed to generate bill of materials" := by
  refine ⟨?_, rfl, fun _ => rfl, rfl⟩
  intro j hj h
  cases j with
  | null => exact absurd rfl hj
  | bool b => rfl
  | num q => rfl
  | str s => rfl
  | arr xs => rfl
  | obj kvs =>
    unfold generateBillOfMaterials
    simp only [h, Bool.false_eq_true, if_false]

theorem c2_bom_missing_key_amended_witness :
    (Json.obj [("components", Json.arr [])] ≠ Json.null)
    ∧ jsTruthy (jsGet (Json.obj [("components", Json.arr [])]) "billOfMaterials") = false
    ∧ generateBillOfMaterials
        (ChatOutcome.ret (some (RespBody.wellFormed (Json.obj [("components", Json.arr [])]))))
        = Except.ok { billOfMaterials := Json.arr [] } :=
  ⟨fun h => Json.noConfusion h, rfl,
    c2_bom_missing_key_amended.1 (Json.obj [("components", Json.arr [])])
      (fun h => Json.noConfusion h) rfl⟩

/-! ## JavaScript string coercion and `JSON.stringify`

Needed by the object-shaped-`projectDescription` branch of
`generate-project-description`.  Both are fuel-bounded on nesting depth
(the values this code meets are shallow). -/

/-- `String(v)` for a JSON value.  Array elements are joined with `,` and a
`null`/`undefined` element renders as the empty string, as
`Array.prototype.toString` does. -/
def jsStringFuel : ℕ → Json → String
  | _, .null => "null"
  | _, .bool b => if b then "true" else "false"
  | _, .num q => jsNumToString q
  | _, .str s => s
  | 0, .arr _ => ""
  | f + 1, .arr xs =>
    String.intercalate "," (xs.map fun x =>
      match x with
      | .null => ""
      | y => jsStringFuel f y)
  | _, .obj _ => "[object Object]"

/-- `String(v)` (fuel instantiated). -/
def jsString (j : Json) : String := jsStringFuel 100 j

/-- Escaping of `"` and `\` inside a JSON-serialized string (control
characters are out of scope). -/
def jsonEscape (s : String) : String :=
  String.join (s.toList.map fun c =>
    if c = '\\' then "\\\\" else if c = '"' then "\\\"" else String.singleton c)

/-- `JSON.stringify(v)`, fuel-bounded on nesting depth. -/
def jsonStringifyFuel : ℕ → Json → String
  | _, .null => "null"
  | _, .bool b => if b then "true" else "false"
  | _, .num q => jsNumToString q
  | _, .str s => "\"" ++ jsonEscape s ++ "\""
  | 0, .arr _ => ""
  | 0, .obj _ => ""
  | f + 1, .arr xs =>
    "[" ++ String.intercalate "," (xs.map fun x => jsonStringifyFuel f x) ++ "]"
  | f + 1, .obj kvs =>
    "\x7b" ++ String.intercalate ","
        (kvs.map fun kv => "\"" ++ jsonEscape kv.1 ++ "\":" ++ jsonStringifyFuel f kv.2)
      ++ "\x7d"

/-- `JSON.stringify(v)` (fuel instantiated). -/
def jsonStringify (j : Json) : String := jsonStringifyFuel 100 j

/-! ## Project-description generator
(`src/src/ai/flows/generate-project-description.ts`, lines 85–178: the
most defensive revision) -/

/-- The fixed fallback phrase wrapping the user's raw input:
`Robot project based on your description: $\x7binput.input\x7d`. -/
def descFallback (input : String) : String :=
  "Robot project based on your description: " ++ input

/-- The `typeof projectDescription === 'object'` branch: formats `goals`,
`scope` and `keyFeatures` when truthy (arrays joined with `; `), otherwise
falls back to `JSON.stringify` of the record. -/
def formatDescObject (r : Json) : String :=
  let goalsPart :=
    if jsTruthy (jsGet r "goals") then
      [ "Goals: " ++
          match jsGet r "goals" with
          | Json.arr xs => String.intercalate "; " (xs.map jsString)
          | v => jsString v ]
    else []
  let scopePart :=
    if jsTruthy (jsGet r "scope") then ["Scope: " ++ jsString (jsGet r "scope")] else []
  let featuresPart :=
    if jsTruthy (jsGet r "keyFeatures") then
      [ "Key Features: " ++
          match jsGet r "keyFeatures" with
          | Json.arr xs => String.intercalate "; " (xs.map jsString)
          | v => jsString v ]
    else []
  let parts := goalsPart ++ scopePart ++ featuresPart
  if parts.length > 0 then String.intercalate "\n" parts else jsonStringify r

/-- `generateProjectDescription` (defensive revision): total — the whole
body sits in a `try` whose `catch` returns the fallback phrase, so it
never raises.  A falsy (missing or empty) content also yields the
fallback; non-JSON content is echoed raw; a parsed body is coerced to a
string — except the bare `null` document, on which
`parsed.projectDescription` throws a `TypeError` that the outer `catch`
turns into the fallback phrase. -/
def generateProjectDescription (input : String) (o : ChatOutcome) : String :=
  match o with
  | .throws => descFallback input
  | .ret none => descFallback input
  | .ret (some (.malformed raw)) =>
    if raw = "" then descFallback input else raw
  | .ret (some (.wellFormed Json.null)) => descFallback input
  | .ret (some (.wellFormed j)) =>
    match jsGet j "projectDescription" with
    | Json.obj fields => formatDescObject (Json.obj fields)
    | Json.arr xs => formatDescObject (Json.arr xs)
    | Json.null => ""
    | v => jsString v

/-- C6: `generateProjectDescription` (most defensive revision) always
returns a string and never raises — it is total into `String`; when the
upstream call throws or the content is missing it echoes the user's input
wrapped in the fixed phrase, and when the content is malformed JSON it
returns the raw response text (the fixed phrase if that text is empty,
since empty content is falsy). -/
theorem c6_description_fail_soft :
    (∀ input : String, generateProjectDescription input ChatOutcome.throws = descFallback input)
    ∧ (∀ input : String,
        generateProjectDescription input (ChatOutcome.ret none) = descFallback input)
    ∧ (∀ input raw : String,
        generateProjectDescription input (ChatOutcome.ret (some (RespBody.malformed raw)))
          = if raw = "" then descFallback input else raw) :=
  ⟨fun _ => rfl, fun _ => rfl, fun _ _ => rfl⟩

/-! ## Assembly-instructions generator
(`src/src/ai/flows/generate-assembly-instructions.ts`, lines 44–221) -/

/-- Output record of `generateAssemblyInstructions`:
`assemblyInstructions` is the raw `parsed.assemblyInstructions || ''`
value, and `assemblyInstructionsFormat` is
`parsed.assemblyInstructionsFormat === 'pdf' ? 'pdf' : 'markdown'`. -/
structure AsmOutput where
  assemblyInstructions : Json
  assemblyInstructionsFormat : String

/-- `generateAssemblyInstructions`: missing content throws inside the
`try`, `JSON.parse` failure throws, and the `catch` rethrows
`'Failed to generate assembly instructions'` — no soft fallback.  When
the parsed body is the bare `null` document,
`parsed.assemblyInstructions` throws a `TypeError` inside the `try`,
rethrown by the same `catch`; every other parsed body yields the fields
(or `undefined`). -/
def generateAssemblyInstructions (o : ChatOutcome) : Except String AsmOutput :=
  match o with
  | .throws => .error "Failed to generate assembly instructions"
  | .ret none => .error "Failed to generate assembly instructions"
  | .ret (some (.malformed _)) => .error "Failed to generate assembly instructions"
  | .ret (some (.wellFormed Json.null)) => .error "Failed to generate assembly instructions"
  | .ret (some (.wellFormed j)) =>
    let v := jsGet j "assemblyInstructions"
    .ok { assemblyInstructions := if jsTruthy v then v else Json.str ""
        , assemblyInstructionsFormat :=
            match jsGet j "assemblyInstructionsFormat" with
            | Json.str s => if s = "pdf" then "pdf" else "markdown"
            | _ => "markdown" }

/-- C7 counterexample: the bare `null` document is parseable JSON, yet
`generateAssemblyInstructions` raises `'Failed to generate assembly
instructions'` on it (property access on the null root throws a
`TypeError` inside the `try`), so the generator does not raise only on
missing or unparsable content as the claim states. -/
theorem c7_assembly_null_counterexample :
    generateAssemblyInstructions (ChatOutcome.ret (some (RespBody.wellFormed Json.null)))
      = Except.error "Failed to generate assembly instructions" := rfl

/-- C7 (amended): `generateAssemblyInstructions` raises `'Failed to
generate assembly instructions'` (no soft fallback) when the call fails,
the response has no content, the content is not parseable JSON, or the
parsed document is the bare `null` (whose property access throws); on
every other parsed response it succeeds with a format tag in
\x7bpdf, markdown\x7d, the tag being `pdf` exactly when the parsed field
is the string `"pdf"` and defaulting to `markdown` otherwise. -/
theorem c7_assembly_format_and_errors :
    (∀ j : Json, j ≠ Json.null → ∃ out : AsmOutput,
      generateAssemblyInstructions (ChatOutcome.ret (some (RespBody.wellFormed j)))
          = Except.ok out
        ∧ (out.assemblyInstructionsFormat = "pdf" ∨ out.assemblyInstructionsFormat = "markdown")
        ∧ (out.assemblyInstructionsFormat = "pdf"
            ↔ jsGet j "assemblyInstructionsFormat" = Json.str "pdf"))
    ∧ generateAssemblyInstructions (ChatOutcome.ret (some (RespBody.wellFormed Json.null)))
        = Except.error "Failed to generate assembly instructions"
    ∧ generateAssemblyInstructions ChatOutcome.throws
        = Except.error "Failed to generate assembly instructions"
    ∧ generateAssemblyInstructions (ChatOutcome.ret none)
        = Except.error "Failed to generate assembly instructions"
    ∧ (∀ raw : String,
        generateAssemblyInstructions (ChatOutcome.ret (some (RespBody.malformed raw)))
          = Except.error "Failed to generate assembly instructions") := by
  refine ⟨?_, rfl, rfl, rfl, fun _ => rfl⟩
  intro j hj
  cases j with
  | null => exact absurd rfl hj
  | bool b =>
    refine ⟨{ assemblyInstructions := Json.str "", assemblyInstructionsFormat := "markdown" },
      rfl, Or.inr rfl, ?_⟩
    simp [jsGet]
  | num q =>
    refine ⟨{ assemblyInstructions := Json.str "", assemblyInstructionsFormat := "markdown" },
      rfl, Or.inr rfl, ?_⟩
    simp [jsGet]
  | str t =>
    refine ⟨{ assemblyInstructions := Json.str "", assemblyInstructionsFormat := "markdown" },
      rfl, Or.inr rfl, ?_⟩
    simp [jsGet]
  | arr xs =>
    refine ⟨{ assemblyInstructions := Json.str "", assemblyInstructionsFormat := "markdown" },
      rfl, Or.inr rfl, ?_⟩
    simp [jsGet]
  | obj kvs =>
    refine ⟨_, rfl, ?_, ?_⟩
    · cases hv : jsGet (Json.obj kvs) "assemblyInstructionsFormat" with
      | str t =>
        simp only [hv]
        by_cases hs : t = "pdf"
        · exact Or.inl (by simp [hs])
        · exact Or.inr (by simp [hs])
      | null => exact Or.inr (by simp [hv])
      | bool b => exact Or.inr (by simp [hv])
      | num q => exact Or.inr (by simp [hv])
      | arr xs => exact Or.inr (by simp [hv])
      | obj kvs2 => exact Or.inr (by simp [hv])
    · cases hv : jsGet (Json.obj kvs) "assemblyInstructionsFormat" with
      | str t =>
        simp only [hv]
        by_cases hs : t = "pdf"
        · subst hs; simp
        · simp [hs, Json.str.injEq]
      | null => simp [hv]
      | bool b => simp [hv]
      | num q => simp [hv]
      | arr xs => simp [hv]
      | obj kvs2 => simp [hv]

theorem c7_assembly_format_and_errors_witness :
    (Json.obj [("assemblyInstructionsFormat", Json.str "pdf")] ≠ Json.null)
    ∧ ∃ out : AsmOutput,
      generateAssemblyInstructions (ChatOutcome.ret (some (RespBody.wellFormed
            (Json.obj [("assemblyInstructionsFormat", Json.str "pdf")]))))
          = Except.ok out
        ∧ (out.assemblyInstructionsFormat = "pdf" ∨ out.assemblyInstructionsFormat = "markdown")
        ∧ (out.assemblyInstructionsFormat = "pdf"
            ↔ jsGet (Json.obj [("assemblyInstructionsFormat", Json.str "pdf")])
                "assemblyInstructionsFormat" = Json.str "pdf") :=
  ⟨fun h => Json.noConfusion h,
    c7_assembly_format_and_errors.1 (Json.obj [("assemblyInstructionsFormat", Json.str "pdf")])
      (fun h => Json.noConfusion h)⟩

/-! ## Image generation (`src/src/ai/flows/generate-images.ts` and the
refinement revision `src/unnamed/part_003`)

`openai.images.generate` calls are modelled by an outcome oracle indexed
by call number within one image's request chain; each function takes the
index of its first call and reports how many generate calls it consumed.
The concept image and the circuit diagram use independent oracles (their
request chains are independent).  The constant `IMAGE_MODEL` is
`'gpt-image-1'`, so on the primary call the `b64_json` branch applies,
while after the `dall-e-3` fallback the code only considers the `url`
field.  At most one `fetch` occurs per chain, prescribed by `fetch`. -/

/-- Outcome of one `openai.images.generate` call: rejection, or a response
whose first datum optionally carries `b64_json` and/or `url` fields. -/
inductive GenOutcome where
  | throws
  | ret (b64 : Option String) (url : Option String)

/-- Outcome of one `fetch` of an image URL. -/
inductive FetchOutcome where
  | throws
  | notOk
  | ok (mime : String) (b64 : String)

/-- Oracles for one image's request chain: the outcome of the k-th
generate call, and of the (single possible) URL fetch. -/
structure ImagesEnv where
  gen : ℕ → GenOutcome
  fetch : FetchOutcome

/-- `imageUrlToDataUri`: fetch the URL; on a non-ok response or a thrown
error return `''` (its own `try`/`catch`), else embed the blob as
`data:$\x7bblob.type\x7d;base64,...`. -/
def imageUrlToDataUri (o : FetchOutcome) : String :=
  match o with
  | .throws => ""
  | .notOk => ""
  | .ok mime b64 => "data:" ++ mime ++ ";base64," ++ b64

/-- The two-tier generation shared verbatim by `generateConceptImage` and
`generateCircuitDiagram` in both revisions (the two functions differ only
in their prompt text, which does not affect control flow): try the primary
`gpt-image-1` call; on a thrown error retry once with `dall-e-3`; read
`b64_json` only from the primary model, else convert the returned URL;
return `''` when the fallback also throws (outer `catch`) or no URL is
present.  Returns the image value and the number of generate calls
consumed, starting at call index `k`. -/
def twoTierImage (env : ImagesEnv) (k : ℕ) : String × ℕ :=
  match env.gen k with
  | .ret b64 url =>
    ( match b64 with
      | some d => "data:image/png;base64," ++ d
      | none =>
        match url with
        | some _ => imageUrlToDataUri env.fetch
        | none => ""
    , 1 )
  | .throws =>
    match env.gen (k + 1) with
    | .throws => ("", 2)
    | .ret _ url =>
      ( match url with
        | some _ => imageUrlToDataUri env.fetch
        | none => ""
      , 2 )

/-- `generateConceptImage` (`generate-images.ts` lines 57–108, and
`part_003` lines 63–127). -/
def generateConceptImage (env : ImagesEnv) : String × ℕ :=
  twoTierImage env 0

/-- `generateCircuitDiagram` (`generate-images.ts` lines 110–175, and
`part_003` lines 129–207). -/
def generateCircuitDiagram (env : ImagesEnv) : String × ℕ :=
  twoTierImage env 0

/-- Output record of `generateRobotImages` (both revisions). -/
structure ImagesOutput where
  conceptImage : String
  circuitDiagram : String
  robot3DModel : String
  robot3DModelFilename : String
deriving DecidableEq, Repr

/-- `generateRobotImages` of `generate-images.ts` (no refinement): concept
image and circuit diagram generated by `Promise.all` over independent
request chains; the OBJ model is skipped.  Returns the output together
with the number of generate calls of each chain. -/
def generateRobotImages (envC envD : ImagesEnv) : ImagesOutput × ℕ × ℕ :=
  let c := generateConceptImage envC
  let d := generateCircuitDiagram envD
  ( { conceptImage := c.1
    , circuitDiagram := d.1
    , robot3DModel := ""
    , robot3DModelFilename := "robot_model.obj" }
  , c.2, d.2 )

/-- `refineConceptImage` (`part_003` lines 227–278): one further
`gpt-image-1` call at index `k`; on a `b64_json` response the refined
image replaces the base image, on anything else (including a thrown
error) the base image is kept. -/
def refineConceptImage (env : ImagesEnv) (baseImage : String) (k : ℕ) : String :=
  match env.gen k with
  | .throws => baseImage
  | .ret b64 _ =>
    match b64 with
    | some d => "data:image/png;base64," ++ d
    | none => baseImage

/-- `refineCircuitDiagram` (`part_003` lines 280–342): same structure as
`refineConceptImage`. -/
def refineCircuitDiagram (env : ImagesEnv) (baseDiagram : String) (k : ℕ) : String :=
  match env.gen k with
  | .throws => baseDiagram
  | .ret b64 _ =>
    match b64 with
    | some d => "data:image/png;base64," ++ d
    | none => baseDiagram

/-- `generateRobotImages` of the refinement revision (`part_003` lines
30–61): base generation then a refinement pass, for each image in turn;
the refinement call follows the base calls of its chain.  Returns the
output and the total number of generate calls of each chain. -/
def generateRobotImagesRefined (envC envD : ImagesEnv) : ImagesOutput × ℕ × ℕ :=
  let c0 := generateConceptImage envC
  let c := refineConceptImage envC c0.1 c0.2
  let d0 := generateCircuitDiagram envD
  let d := refineCircuitDiagram envD d0.1 d0.2
  ( { conceptImage := c
    , circuitDiagram := d
    , robot3DModel := ""
    , robot3DModelFilename := "robot_model.obj" }
  , c0.2 + 1, d0.2 + 1 )

/-- An oracle on which both tiers of the base generation throw and the
refinement call succeeds with inline base64 data. -/
def envBothTiersFail : ImagesEnv :=
  { gen := fun k =>
      match k with
      | 0 => .throws
      | 1 => .throws
      | _ => .ret (some "REFINEDDATA") none
  , fetch := .throws }

/-- C4 counterexample: in the refinement revision (`part_003`), with both
base tiers throwing, the concept image chain issues three generate calls —
not at most two — and, although both tiers failed, the returned concept
image is the refined non-empty data URI, not the empty string. -/
theorem c4_attempts_counterexample :
    (generateRobotImagesRefined envBothTiersFail envBothTiersFail).2.1 = 3
    ∧ (generateRobotImagesRefined envBothTiersFail envBothTiersFail).1.conceptImage
        = "data:image/png;base64,REFINEDDATA"
    ∧ (generateRobotImagesRefined envBothTiersFail envBothTiersFail).1.conceptImage ≠ "" := by
  refine ⟨rfl, rfl, ?_⟩
  decide

/-- C4 (amended): in the base two-tier generation a thrown primary call is
followed by exactly one secondary attempt, so the base generator issues at
most two generate calls and returns `''` when both tiers throw; the
refinement revision issues exactly one additional refinement call per
image (three base-plus-refinement calls when the primary throws), and a
successful refinement replaces the base result — possibly turning a
failed base generation into a non-empty image; no failure aborts the
pipeline (both pipeline functions are total and degrade to empty
strings). -/
theorem c4_attempts_amended :
    (∀ (env : ImagesEnv) (k : ℕ), (twoTierImage env k).2 ≤ 2)
    ∧ (∀ (env : ImagesEnv) (k : ℕ),
        env.gen k = GenOutcome.throws → (twoTierImage env k).2 = 2)
    ∧ (∀ (env : ImagesEnv) (k : ℕ),
        env.gen k = GenOutcome.throws → env.gen (k + 1) = GenOutcome.throws →
        (twoTierImage env k).1 = "")
    ∧ (∀ envC envD : ImagesEnv,
        (generateRobotImages envC envD).2.1 ≤ 2 ∧ (generateRobotImages envC envD).2.2 ≤ 2)
    ∧ (∀ envC envD : ImagesEnv,
        (generateRobotImagesRefined envC envD).2.1 ≤ 3
        ∧ (generateRobotImagesRefined envC envD).2.2 ≤ 3) := by
  have htwo : ∀ (env : ImagesEnv) (k : ℕ), (twoTierImage env k).2 ≤ 2 := by
    intro env k
    unfold twoTierImage
    cases env.gen k with
    | throws =>
      cases env.gen (k + 1) with
      | throws => simp
      | ret b u => simp
    | ret b u => simp
  refine ⟨htwo, ?_, ?_, ?_, ?_⟩
  · intro env k h
    unfold twoTierImage
    rw [h]
    cases env.gen (k + 1) with
    | throws => simp
    | ret b u => simp
  · intro env k h1 h2
    unfold twoTierImage
    rw [h1, h2]
  · intro envC envD
    exact ⟨htwo envC 0, htwo envD 0⟩
  · intro envC envD
    constructor
    · show (generateConceptImage envC).2 + 1 ≤ 3
      have := htwo envC 0
      unfold generateConceptImage
      omega
    · show (generateCircuitDiagram envD).2 + 1 ≤ 3
      have := htwo envD 0
      unfold generateCircuitDiagram
      omega

theorem c4_attempts_amended_witness :
    envBothTiersFail.gen 0 = GenOutcome.throws
    ∧ envBothTiersFail.gen 1 = GenOutcome.throws
    ∧ (twoTierImage envBothTiersFail 0).1 = ""
    ∧ (twoTierImage envBothTiersFail 0).2 = 2 :=
  ⟨rfl, rfl, c4_attempts_amended.2.2.1 envBothTiersFail 0 rfl rfl,
    c4_attempts_amended.2.1 envBothTiersFail 0 rfl⟩

/-- A string is the empty image value or a `data:` URI. -/
def IsDataUriOrEmpty (s : String) : Prop :=
  s = "" ∨ ∃ rest : String, s = "data:" ++ rest

theorem imageUrlToDataUri_dataUriOrEmpty (o : FetchOutcome) :
    IsDataUriOrEmpty (imageUrlToDataUri o) := by
  cases o with
  | throws => exact Or.inl rfl
  | notOk => exact Or.inl rfl
  | ok mime b64 =>
    refine Or.inr ⟨mime ++ ";base64," ++ b64, ?_⟩
    show "data:" ++ mime ++ ";base64," ++ b64 = "data:" ++ (mime ++ ";base64," ++ b64)
    simp only [String.append_assoc]

theorem twoTierImage_dataUriOrEmpty (env : ImagesEnv) (k : ℕ) :
    IsDataUriOrEmpty (twoTierImage env k).1 := by
  unfold twoTierImage
  cases env.gen k with
  | throws =>
    cases env.gen (k + 1) with
    | throws => exact Or.inl rfl
    | ret b u =>
      cases u with
      | none => exact Or.inl rfl
      | some x => exact imageUrlToDataUri_dataUriOrEmpty env.fetch
  | ret b u =>
    cases b with
    | some d =>
      refine Or.inr ⟨"image/png;base64," ++ d, ?_⟩
      show "data:image/png;base64," ++ d = "data:" ++ ("image/png;base64," ++ d)
      rw [show "data:image/png;base64," = "data:" ++ "image/png;base64," from rfl,
        String.append_assoc]
    | none =>
      cases u with
      | none => exact Or.inl rfl
      | some x => exact imageUrlToDataUri_dataUriOrEmpty env.fetch

theorem refineConceptImage_dataUriOrEmpty (env : ImagesEnv) (b : String) (k : ℕ)
    (hb : IsDataUriOrEmpty b) : IsDataUriOrEmpty (refineConceptImage env b k) := by
  unfold refineConceptImage
  cases env.gen k with
  | throws => exact hb
  | ret b64 u =>
    cases b64 with
    | some d =>
      refine Or.inr ⟨"image/png;base64," ++ d, ?_⟩
      show "data:image/png;base64," ++ d = "data:" ++ ("image/png;base64," ++ d)
      rw [show "data:image/png;base64," = "data:" ++ "image/png;base64," from rfl,
        String.append_assoc]
    | none => exact hb

theorem refineCircuitDiagram_dataUriOrEmpty (env : ImagesEnv) (b : String) (k : ℕ)
    (hb : IsDataUriOrEmpty b) : IsDataUriOrEmpty (refineCircuitDiagram env b k) := by
  unfold refineCircuitDiagram
  cases env.gen k with
  | throws => exact hb
  | ret b64 u =>
    cases b64 with
    | some d =>
      refine Or.inr ⟨"image/png;base64," ++ d, ?_⟩
      show "data:image/png;base64," ++ d = "data:" ++ ("image/png;base64," ++ d)
      rw [show "data:image/png;base64," = "data:" ++ "image/png;base64," from rfl,
        String.append_assoc]
    | none => exact hb

/-- C10: every `conceptImage` and `circuitDiagram` value returned by
`generateRobotImages` — in the plain revision and in the refinement
revision — is either the empty string or a `data:` URI: a remote URL
returned by the provider is always converted by `imageUrlToDataUri`
(or replaced by `''` when the conversion fails), never passed through
raw. -/
theorem c10_images_data_uri (envC envD : ImagesEnv) :
    IsDataUriOrEmpty (generateRobotImages envC envD).1.conceptImage
    ∧ IsDataUriOrEmpty (generateRobotImages envC envD).1.circuitDiagram
    ∧ IsDataUriOrEmpty (generateRobotImagesRefined envC envD).1.conceptImage
    ∧ IsDataUriOrEmpty (generateRobotImagesRefined envC envD).1.circuitDiagram :=
  ⟨twoTierImage_dataUriOrEmpty envC 0,
   twoTierImage_dataUriOrEmpty envD 0,
   refineConceptImage_dataUriOrEmpty envC _ _ (twoTierImage_dataUriOrEmpty envC 0),
   refineCircuitDiagram_dataUriOrEmpty envD _ _ (twoTierImage_dataUriOrEmpty envD 0)⟩

/-! ## Orchestrator (`src/unnamed/part_007` lines 11–59, sequential with
images; `src/unnamed/part_006` lines 25–68, parallel with placeholder
fetches)

Each generator call is modelled by its prescribed outcome (`Except` for
the generators whose revisions can throw; `generateRobotImages` is total
and never rejects).  The generators' inputs — the description text, the
platform, and the BOM text summary the orchestrator builds — do not
influence the prescribed outcomes, so they are not threaded through the
oracle.  A trace of events records which calls were issued, in order; the
`Promise.all` of the parallel revision starts all its calls before any is
awaited, and rejects with the first rejection in list order. -/

/-- Target hardware platform. -/
inductive Platform where
  | raspberryPi
  | arduino
  | microBit
deriving DecidableEq, Repr

/-- Output of `generateAssemblyInstructions` as the orchestrator and the
results view consume it. -/
structure AsmValue where
  assemblyInstructions : String
  assemblyInstructionsFormat : String
deriving DecidableEq, Repr

/-- `ProjectData` (`src/src/lib/types.ts`), flattened: the wrapped
one-field generator outputs are inlined, and the optional image fields
are `Option` (the parallel revision does not set them). -/
structure ProjectData where
  projectDescription : String
  billOfMaterials : List BomItem
  code : String
  assemblyInstructions : String
  assemblyInstructionsFormat : String
  conceptImage : Option String
  circuitDiagramImage : Option String
  robot3DModelObjContent : Option String
  robot3DModelFilename : Option String
  platform : Platform
deriving DecidableEq, Repr

/-- The record returned by `generateProjectAction`:
`\x7b success, data?, error? \x7d`. -/
structure ActionResult where
  success : Bool
  data : Option ProjectData
  error : Option String
deriving DecidableEq, Repr

/-- One issued call, for the orchestrator's event trace. -/
inductive GenEvent where
  | descCall
  | bomCall
  | codeCall
  | imagesCall
  | placeholderFetch
  | asmCall
deriving DecidableEq, Repr

/-- Prescribed outcomes of the five generator calls of one request. -/
structure GeneratorOutcomes where
  desc : Except String String
  bom : Except String (List BomItem)
  code : Except String String
  images : ImagesOutput
  asm : Except String AsmValue

/-- A failed `ActionResult`: the `catch` block of `generateProjectAction`
returns `\x7b success: false, error: error.message \x7d` — a single
flattened message, no data. -/
def failureResult (e : String) : ActionResult :=
  { success := false, data := none, error := some e }

/-- `generateProjectAction` of `part_007` (sequential revision):
description, then BOM, then code, then images, then assembly
instructions; any rejection is caught by the single surrounding
`try`/`catch`. -/
def generateProjectAction (g : GeneratorOutcomes) (platform : Platform) :
    ActionResult × List GenEvent :=
  match g.desc with
  | .error e => (failureResult e, [.descCall])
  | .ok desc =>
    match g.bom with
    | .error e => (failureResult e, [.descCall, .bomCall])
    | .ok bom =>
      match g.code with
      | .error e => (failureResult e, [.descCall, .bomCall, .codeCall])
      | .ok code =>
        let imgs := g.images
        match g.asm with
        | .error e =>
          (failureResult e, [.descCall, .bomCall, .codeCall, .imagesCall, .asmCall])
        | .ok a =>
          ( { success := true
            , data := some
                { projectDescription := desc
                , billOfMaterials := bom
                , code := code
                , assemblyInstructions := a.assemblyInstructions
                , assemblyInstructionsFormat := a.assemblyInstructionsFormat
                , conceptImage := some imgs.conceptImage
                , circuitDiagramImage := some imgs.circuitDiagram
                , robot3DModelObjContent := some imgs.robot3DModel
                , robot3DModelFilename := some imgs.robot3DModelFilename
                , platform := platform }
            , error := none }
          , [.descCall, .bomCall, .codeCall, .imagesCall, .asmCall] )

/-- `generateProjectAction` of `part_006` (parallel revision):
description first, then `Promise.all` of BOM, code and the two
placeholder fetches (`getPlaceholderDataUri` never rejects — it returns
`''` on any failure), then assembly instructions last.  All four parallel
calls are started before any is awaited; a rejection of the combined
promise carries the first rejection in list order. -/
def generateProjectActionParallel (g : GeneratorOutcomes) (platform : Platform) :
    ActionResult × List GenEvent :=
  match g.desc with
  | .error e => (failureResult e, [.descCall])
  | .ok desc =>
    let started : List GenEvent :=
      [.descCall, .bomCall, .codeCall, .placeholderFetch, .placeholderFetch]
    match g.bom with
    | .error e => (failureResult e, started)
    | .ok bom =>
      match g.code with
      | .error e => (failureResult e, started)
      | .ok code =>
        match g.asm with
        | .error e => (failureResult e, started ++ [.asmCall])
        | .ok a =>
          ( { success := true
            , data := some
                { projectDescription := desc
                , billOfMaterials := bom
                , code := code
                , assemblyInstructions := a.assemblyInstructions
                , assemblyInstructionsFormat := a.assemblyInstructionsFormat
                , conceptImage := none
                , circuitDiagramImage := none
                , robot3DModelObjContent := none
                , robot3DModelFilename := none
                , platform := platform }
            , error := none }
          , started ++ [.asmCall] )

/-- C5: in both orchestrator revisions the description call is always
first (it completes before any downstream generator runs), the
assembly-instructions call — whenever issued — is last, and an error
raised by the BOM, code or assembly generator yields
`\x7b success: false, error \x7d` with that single message and no
(partial) data; on full success the result record carries all generator
outputs and the assembly call is the final event. -/
theorem c5_orchestrator_sequencing :
    (∀ (g : GeneratorOutcomes) (p : Platform),
      (generateProjectAction g p).2.head? = some GenEvent.descCall
      ∧ (generateProjectActionParallel g p).2.head? = some GenEvent.descCall)
    ∧ (∀ (g : GeneratorOutcomes) (p : Platform),
      ((generateProjectAction g p).2.getLast? = some GenEvent.asmCall
        ∨ (generateProjectAction g p).2.contains GenEvent.asmCall = false)
      ∧ ((generateProjectActionParallel g p).2.getLast? = some GenEvent.asmCall
        ∨ (generateProjectActionParallel g p).2.contains GenEvent.asmCall = false))
    ∧ (∀ (d : String) (e : String) (c : Except String String) (imgs : ImagesOutput)
        (a : Except String AsmValue) (p : Platform),
      generateProjectAction ⟨.ok d, .error e, c, imgs, a⟩ p
          = (failureResult e, [.descCall, .bomCall])
      ∧ generateProjectActionParallel ⟨.ok d, .error e, c, imgs, a⟩ p
          = (failureResult e,
              [.descCall, .bomCall, .codeCall, .placeholderFetch, .placeholderFetch]))
    ∧ (∀ (d : String) (b : List BomItem) (e : String) (imgs : ImagesOutput)
        (a : Except String AsmValue) (p : Platform),
      generateProjectAction ⟨.ok d, .ok b, .error e, imgs, a⟩ p
          = (failureResult e, [.descCall, .bomCall, .codeCall])
      ∧ generateProjectActionParallel ⟨.ok d, .ok b, .error e, imgs, a⟩ p
          = (failureResult e,
              [.descCall, .bomCall, .codeCall, .placeholderFetch, .placeholderFetch]))
    ∧ (∀ (d : String) (b : List BomItem) (c : String) (imgs : ImagesOutput)
        (e : String) (p : Platform),
      generateProjectAction ⟨.ok d, .ok b, .ok c, imgs, .error e⟩ p
          = (failureResult e, [.descCall, .bomCall, .codeCall, .imagesCall, .asmCall])
      ∧ generateProjectActionParallel ⟨.ok d, .ok b, .ok c, imgs, .error e⟩ p
          = (failureResult e,
              [.descCall, .bomCall, .codeCall, .placeholderFetch, .placeholderFetch,
                .asmCall]))
    ∧ (∀ (d : String) (b : List BomItem) (c : String) (imgs : ImagesOutput)
        (a : AsmValue) (p : Platform),
      generateProjectAction ⟨.ok d, .ok b, .ok c, imgs, .ok a⟩ p
        = ( { success := true
            , data := some
                { projectDescription := d
                , billOfMaterials := b
                , code := c
                , assemblyInstructions := a.assemblyInstructions
                , assemblyInstructionsFormat := a.assemblyInstructionsFormat
                , conceptImage := some imgs.conceptImage
                , circuitDiagramImage := some imgs.circuitDiagram
                , robot3DModelObjContent := some imgs.robot3DModel
                , robot3DModelFilename := some imgs.robot3DModelFilename
                , platform := p }
            , error := none }
          , [.descCall, .bomCall, .codeCall, .imagesCall, .asmCall])) := by
  refine ⟨?_, ?_, ?_, ?_, ?_, ?_⟩
  · intro g p
    obtain ⟨desc, bom, code, imgs, asm⟩ := g
    cases desc <;> cases bom <;> cases code <;> cases asm <;>
      simp [generateProjectAction, generateProjectActionParallel]
  · intro g p
    obtain ⟨desc, bom, code, imgs, asm⟩ := g
    cases desc <;> cases bom <;> cases code <;> cases asm <;>
      simp [generateProjectAction, generateProjectActionParallel]
  · intro d e c imgs a p
    exact ⟨rfl, rfl⟩
  · intro d b e imgs a p
    exact ⟨rfl, rfl⟩
  · intro d b c imgs e p
    exact ⟨rfl, rfl⟩
  · intro d b c imgs a p
    rfl

/-! ## Result packager (`src/src/components/robosketch/results-display.tsx`,
`handleDownload`, lines 26–52) -/

/-- One CSV data row of `bill_of_materials.csv`:
`"$\x7bi.component\x7d","$\x7bi.description\x7d",$\x7bi.link\x7d,$\x7bi.approximatePriceUSD\x7d`. -/
def csvRow (i : BomItem) : String :=
  "\"" ++ i.component ++ "\",\"" ++ i.description ++ "\"," ++ i.link ++ ","
    ++ jsNumToString i.approximatePriceUSD

/-- The content of `bill_of_materials.csv`: the fixed header line followed
by the rows joined with newlines. -/
def bomCsv (bom : List BomItem) : String :=
  "Component,Description,Link,Price (USD)\n" ++ String.intercalate "\n" (bom.map csvRow)

/-- `data.platform === 'Raspberry Pi' ? 'py' : 'cpp'`. -/
def codeFileExtension (p : Platform) : String :=
  match p with
  | .raspberryPi => "py"
  | _ => "cpp"

/-- An entry of the static placeholder-image list. -/
structure Placeholder where
  id : String
  imageUrl : String
deriving DecidableEq, Repr

/-- Modelled from the spec: the static placeholder-image list
(`src/lib/placeholder-images` is not among the provided sources).  §6 of
the spec states the archive contains "a fixed pair of image files
(currently sourced from static placeholders rather than the generated
images in the packaging step)", and the results view looks the pair up by
the ids `circuit-diagram` and `3d-model` (`robot-concept` is shown in the
page but not packaged), so the list contains entries with those ids. -/
def PlaceHolderImages : List Placeholder :=
  [ { id := "robot-concept", imageUrl := "https://placeholder/robot-concept.jpg" }
  , { id := "circuit-diagram", imageUrl := "https://placeholder/circuit-diagram.jpg" }
  , { id := "3d-model", imageUrl := "https://placeholder/3d-model.jpg" } ]

/-- One file placed in the ZIP archive: a text file with its content, or a
fetched binary blob with the URL it came from. -/
inductive ZipEntry where
  | text (path : String) (content : String)
  | blob (path : String) (sourceUrl : String)
deriving DecidableEq, Repr

/-- The path of an archive entry. -/
def ZipEntry.path : ZipEntry → String
  | .text p _ => p
  | .blob p _ => p

/-- `handleDownload`: the list of `zip.file(...)` calls issued for a
completed `ProjectData` — the four text files unconditionally, then the
two placeholder-sourced images under `images/` (each guarded by its
`find?` succeeding). -/
def handleDownload (d : ProjectData) : List ZipEntry :=
  let circuitImage := PlaceHolderImages.find? (fun p => p.id == "circuit-diagram")
  let modelImage := PlaceHolderImages.find? (fun p => p.id == "3d-model")
  [ ZipEntry.text "project_description.txt" d.projectDescription
  , ZipEntry.text "bill_of_materials.csv" (bomCsv d.billOfMaterials)
  , ZipEntry.text ("code." ++ codeFileExtension d.platform) d.code
  , ZipEntry.text "assembly_instructions.md" d.assemblyInstructions ]
  ++ (match circuitImage with
      | some ph => [ZipEntry.blob "images/circuit_diagram.jpg" ph.imageUrl]
      | none => [])
  ++ (match modelImage with
      | some ph => [ZipEntry.blob "images/3d_model.jpg" ph.imageUrl]
      | none => [])

/-- The top-level component of an archive path (the part before the first
`/`). -/
def topLevelName (p : String) : String :=
  String.mk (p.toList.takeWhile (fun c => c ≠ '/'))

/-- Substring check used to state the absence of a total column: does
`needle` occur as a contiguous run inside `hay`? -/
def hasSubstring (needle : List Char) : List Char → Bool
  | [] => needle.isEmpty
  | c :: t => needle.isPrefixOf (c :: t) || hasSubstring needle t

set_option maxRecDepth 8000 in
/-- C3 counterexample: on the spec's own example BOM (4 × $3.95 and
2 × $12.95, total $41.70) the serialized `bill_of_materials.csv` contains
neither the computed total `41.70` nor any `Total` column — its header
row is exactly `Component,Description,Link,Price (USD)`. -/
theorem c3_csv_counterexample :
    hasSubstring "41.7".toList (bomCsv exampleBom).toList = false
    ∧ hasSubstring "Total".toList (bomCsv exampleBom).toList = false
    ∧ (bomCsv exampleBom).toList.takeWhile (fun c => c ≠ '\n')
        = "Component,Description,Link,Price (USD)".toList := by
  refine ⟨?_, ?_, ?_⟩ <;> decide

/-- C3 (amended): the result packager serializes the BOM into the
archive's `bill_of_materials.csv` as the fixed header line
`Component,Description,Link,Price (USD)` followed by one row per item
holding the quoted component, quoted description, link, and per-unit
price; it includes no computed total price column (and no quantity
column). -/
theorem c3_csv_amended (bom : List BomItem) :
    ∃ rows : String,
      bomCsv bom = "Component,Description,Link,Price (USD)\n" ++ rows
      ∧ rows = String.intercalate "\n" (bom.map csvRow)
      ∧ hasSubstring "Total".toList "Component,Description,Link,Price (USD)".toList
          = false :=
  ⟨String.intercalate "\n" (bom.map csvRow), rfl, rfl, by decide⟩

/-- C8: the code file placed in the archive is `code.py` exactly when the
platform is Raspberry Pi and `code.cpp` exactly when it is Arduino or
MicroBit. -/
theorem c8_code_file_extension (d : ProjectData) :
    ZipEntry.text ("code." ++ codeFileExtension d.platform) d.code ∈ handleDownload d
    ∧ (codeFileExtension d.platform = "py" ↔ d.platform = Platform.raspberryPi)
    ∧ (codeFileExtension d.platform = "cpp"
        ↔ (d.platform = Platform.arduino ∨ d.platform = Platform.microBit)) := by
  obtain ⟨d1, d2, d3, d4, d5, d6, d7, d8, d9, p⟩ := d
  refine ⟨?_, ?_, ?_⟩
  · simp [handleDownload, PlaceHolderImages]
  · cases p <;> simp [codeFileExtension]
  · cases p <;> simp [codeFileExtension]

/-- C9: for every completed `ProjectData`, whatever the generator outputs
(including empty ones), the archive contains exactly five fixed top-level
entries: the description text file, the BOM csv, the code file, the
instructions file, and the `images` folder. -/
theorem c9_archive_top_level (d : ProjectData) :
    ((handleDownload d).map (fun e => topLevelName e.path)).dedup
      = [ "project_description.txt", "bill_of_materials.csv"
        , "code." ++ codeFileExtension d.platform, "assembly_instructions.md", "images" ] := by
  obtain ⟨d1, d2, d3, d4, d5, d6, d7, d8, d9, p⟩ := d
  cases p <;> rfl
